import Mathlib

/-!
Formal model of the Flipkart scraper ingestion pipeline
(`backend/modules/flipkart/main.py` and `backend/modules/flipkart/api.py`).

The Python code manipulates parsed JSON as nested dictionaries and lists;
we embed JSON values as the inductive type `JVal`, and Python's raising
subscript operations (`d[k]`, `xs[0]`) as `Except PyErr` computations.
The pagination driver, the retry decorator and the persistence layer are
modelled as explicit state-passing functions that also record a trace of
observable events (page fetches, sleeps) and log messages.
-/

/-- Errors raised by the Python-level operations we model: `KeyError` from a
dict subscript with a missing key, `IndexError` from an out-of-range list
subscript, and `TypeError` for subscripting a non-container value. -/
inductive PyErr where
  | keyError (k : String)
  | indexError
  | typeError
deriving Repr, DecidableEq

/-- A JSON value, as produced by `json.loads` in the scraper. Objects keep
their fields in insertion order, matching Python dict semantics. -/
inductive JVal where
  | null
  | bool (b : Bool)
  | num (n : Int)
  | str (s : String)
  | arr (xs : List JVal)
  | obj (fields : List (String × JVal))
deriving Repr

mutual

/-- Structural equality of JSON values (Python `==` on parsed JSON). -/
def JVal.beq : JVal → JVal → Bool
  | .null, .null => true
  | .bool a, .bool b => a == b
  | .num a, .num b => a == b
  | .str a, .str b => a == b
  | .arr xs, .arr ys => JVal.beqArr xs ys
  | .obj xs, .obj ys => JVal.beqObj xs ys
  | _, _ => false

/-- Elementwise equality of JSON arrays. -/
def JVal.beqArr : List JVal → List JVal → Bool
  | [], [] => true
  | x :: xs, y :: ys => JVal.beq x y && JVal.beqArr xs ys
  | _, _ => false

/-- Fieldwise equality of JSON objects. -/
def JVal.beqObj : List (String × JVal) → List (String × JVal) → Bool
  | [], [] => true
  | (k1, v1) :: xs, (k2, v2) :: ys => k1 == k2 && JVal.beq v1 v2 && JVal.beqObj xs ys
  | _, _ => false

end

/-- Python `d[k]` on a parsed-JSON value: `KeyError` when the key is absent,
`TypeError` when the value is not a dict. -/
def JVal.index : JVal → String → Except PyErr JVal
  | .obj fields, k =>
    match fields.lookup k with
    | some v => .ok v
    | none => .error (.keyError k)
  | _, _ => .error .typeError

/-- Python `xs[0]`: `IndexError` on an empty list, `TypeError` on a non-list. -/
def JVal.head0 : JVal → Except PyErr JVal
  | .arr (x :: _) => .ok x
  | .arr [] => .error .indexError
  | _ => .error .typeError

/-- Iterating a value with `for x in v` requires it to be a list. -/
def JVal.asArr : JVal → Except PyErr (List JVal)
  | .arr xs => .ok xs
  | _ => .error .typeError

/-- Passing a value where Python needs a `str` (e.g. to `urljoin`). -/
def JVal.asStr : JVal → Except PyErr String
  | .str s => .ok s
  | _ => .error .typeError

/-- Python `d.values()` on a parsed-JSON dict, in insertion order. -/
def JVal.valuesOf : JVal → Except PyErr (List JVal)
  | .obj fields => .ok (fields.map Prod.snd)
  | _ => .error .typeError

/-- Tests whether a JSON value equals a given string literal
(Python `v == "..."`, which never raises). -/
def JVal.isStrVal (v : JVal) (s : String) : Bool :=
  match v with
  | .str t => t == s
  | _ => false

/-- Whether the first character list is a prefix of the second. -/
def isPrefixChars : List Char → List Char → Bool
  | [], _ => true
  | _ :: _, [] => false
  | p :: ps, c :: cs => p == c && isPrefixChars ps cs

/-- Splits a character list at the first occurrence of a nonempty pattern,
returning the part before the pattern and the part after it. -/
def breakOnSub (pat : List Char) : List Char → Option (List Char × List Char)
  | [] => none
  | c :: cs =>
    if isPrefixChars pat (c :: cs) then some ([], List.drop (pat.length - 1) cs)
    else
      match breakOnSub pat cs with
      | some (before, after) => some (c :: before, after)
      | none => none

/-- Replaces every occurrence of a nonempty pattern in a character list
(left to right, non-overlapping), as Python `str.replace` does. -/
def replaceChars (pat repl : List Char) : List Char → List Char
  | [] => []
  | c :: cs =>
    if isPrefixChars pat (c :: cs) then
      repl ++ replaceChars pat repl (List.drop (pat.length - 1) cs)
    else
      c :: replaceChars pat repl cs
termination_by cs => cs.length
decreasing_by
  all_goals (simp only [List.length_drop, List.length_cons]; omega)

/-- Python `s.replace(pat, repl)` for a nonempty pattern. -/
def pyReplace (s pat repl : String) : String :=
  ⟨replaceChars pat.data repl.data s.data⟩

/-- Python `s.rstrip(ch)`: removes every trailing occurrence of `ch`. -/
def pyRstrip (s : String) (ch : Char) : String :=
  ⟨(s.data.reverse.dropWhile (fun c => c == ch)).reverse⟩

/-- The scheme-and-authority part of an absolute http(s) URL,
e.g. the part before the path. -/
def schemeAuthority (base : String) : String :=
  match breakOnSub "://".data base.data with
  | some (scheme, rest) => ⟨scheme ++ "://".data ++ rest.takeWhile (fun c => c != '/')⟩
  | none => ""

/-- Everything up to and including the last slash of a URL string. -/
def dropLastSegment (s : String) : String :=
  ⟨(s.data.reverse.dropWhile (fun c => c != '/')).reverse⟩

/-- Modelled from Python's `urllib.parse.urljoin`, restricted to the reference
shapes the scraper uses: an already-absolute http(s) reference is returned
unchanged, a network-path reference keeps the base scheme, a path-absolute
reference (leading slash) replaces the base path, an empty reference returns
the base, and a relative reference replaces the last path segment of the
base. -/
def urljoin (base url : String) : String :=
  if isPrefixChars "http://".data url.data || isPrefixChars "https://".data url.data then url
  else if isPrefixChars "//".data url.data then
    ⟨base.data.takeWhile (fun c => c != ':') ++ (':' :: url.data)⟩
  else if isPrefixChars "/".data url.data then schemeAuthority base ++ url
  else if url.data.isEmpty then base
  else dropLastSegment base ++ url

namespace FlipkartScraper

/-- `FlipkartScraper.BASE_URL`. -/
def BASE_URL : String := "https://www.flipkart.com/"

/-- `FlipkartScraper.MODULE`. -/
def MODULE : String := "FLIPKART"

/-- `FlipkartScraper.SEARCH_URL = urljoin(BASE_URL, "search")`. -/
def SEARCH_URL : String := urljoin BASE_URL "search"

/-- `FlipkartScraper.MAX_PAGES` (class default). -/
def MAX_PAGES : Nat := 10

/-- `FlipkartScraper.PAGE` initial value (class default). -/
def PAGE_INIT : Nat := 1

end FlipkartScraper

/-- The parsed page handed to `get_json_response`: we record whether the page
has a `script` element with id `is_script` and, if so, its body text
(`soup.find('script', id='is_script')`). -/
structure Soup where
  script : Option String
deriving Repr

/-- The body transformation of `get_json_response`:
`script.string.replace('window.__INITIAL_STATE__ = ', '').rstrip(';')`. -/
def stripScript (s : String) : String :=
  pyRstrip (pyReplace s "window.__INITIAL_STATE__ = " "") ';'

namespace FlipkartScraper

/-- `FlipkartScraper.get_json_response`. `parseJson` stands for `json.loads`
(`none` means it raises `json.JSONDecodeError`). Returns the parsed value
together with the list of error-log messages emitted; on a missing script or
a parse failure it logs and returns the empty dict `{}`. -/
def get_json_response (parseJson : String → Option JVal) (soup : Soup) :
    JVal × List String :=
  match soup.script with
  | some body =>
    match parseJson (stripScript body) with
    | some j => (j, [])
    | none => (.obj [], ["Failed to parse JSON data"])
  | none => (.obj [], ["No script found with id: is_script"])

end FlipkartScraper

/-- One iteration of the slot loop shared by both extraction strategies:
`if slot['slotType'] == 'WIDGET' and slot['widget']['type'] == 'PRODUCT_SUMMARY':
PRODUCTS.append(slot['widget']['data']['products'][0]['productInfo']['value'])`,
with Python's short-circuit `and`. -/
def processSlot (slot : JVal) (acc : List JVal) : Except PyErr (List JVal) :=
  match slot.index "slotType" with
  | .error e => .error e
  | .ok st =>
    if st.isStrVal "WIDGET" then
      match slot.index "widget" with
      | .error e => .error e
      | .ok w =>
        match w.index "type" with
        | .error e => .error e
        | .ok ty =>
          if ty.isStrVal "PRODUCT_SUMMARY" then
            match slot.index "widget" with
            | .error e => .error e
            | .ok w2 =>
              match w2.index "data" with
              | .error e => .error e
              | .ok d =>
                match d.index "products" with
                | .error e => .error e
                | .ok ps =>
                  match ps.head0 with
                  | .error e => .error e
                  | .ok p0 =>
                    match p0.index "productInfo" with
                    | .error e => .error e
                    | .ok pinfo =>
                      match pinfo.index "value" with
                      | .error e => .error e
                      | .ok v => .ok (acc ++ [v])
          else .ok acc
    else .ok acc

/-- `for slot in item: ...` over a list of slots, threading the accumulator;
an exception from any slot propagates out of the whole loop. -/
def processSlots (slots : List JVal) (acc : List JVal) : Except PyErr (List JVal) :=
  match slots with
  | [] => .ok acc
  | s :: rest =>
    match processSlot s acc with
    | .error e => .error e
    | .ok acc2 => processSlots rest acc2

/-- The outer loop of the HTML strategy:
`for item in json_response['pageDataV4']['page']['data'].values()`,
each `item` being iterated as a list of slots. -/
def processItems (items : List JVal) (acc : List JVal) : Except PyErr (List JVal) :=
  match items with
  | [] => .ok acc
  | it :: rest => do
    let slots ← it.asArr
    let acc2 ← processSlots slots acc
    processItems rest acc2

namespace FlipkartScraper

/-- `FlipkartScraper.get_products` (HTML strategy). -/
def get_products (json_response : JVal) : Except PyErr (List JVal) := do
  let pd ← json_response.index "pageDataV4"
  let pg ← pd.index "page"
  let data ← pg.index "data"
  let items ← data.valuesOf
  processItems items []

end FlipkartScraper

namespace FlipkartApiScraper

/-- `FlipkartApiScraper.get_products` (API strategy):
`for slot in json_response['RESPONSE']['slots']`. -/
def get_products (json_response : JVal) : Except PyErr (List JVal) := do
  let resp ← json_response.index "RESPONSE"
  let slots ← (← resp.index "slots").asArr
  processSlots slots []

end FlipkartApiScraper

/-- The canonical product record built by `get_product_details` and persisted
by `save_to_db`. The raw JSON values are kept as they are stored. -/
structure ProductRecord where
  product_id : JVal
  title : JVal
  url : String
  rating : JVal
  specifications : JVal
  media : List JVal
  pricing : JVal
  category : JVal
  warrantySummary : JVal
  availability : JVal
  source : String
deriving Repr

/-- The list comprehension `[img['url'] for img in product['media']['images']]`. -/
def imageUrls : List JVal → Except PyErr (List JVal)
  | [] => .ok []
  | img :: rest => do
    let u ← img.index "url"
    let us ← imageUrls rest
    .ok (u :: us)

namespace FlipkartScraper

/-- `FlipkartScraper.get_product_details`: the Normalizer. Field lookups occur
in the order of the Python dict literal, so the first missing key determines
the raised `KeyError`. -/
def get_product_details (product : JVal) : Except PyErr ProductRecord := do
  let pid ← product.index "id"
  let titles ← product.index "titles"
  let title ← titles.index "title"
  let baseUrl ← (← product.index "baseUrl").asStr
  let url := urljoin BASE_URL baseUrl
  let rating ← product.index "rating"
  let specs ← product.index "keySpecs"
  let mediaBlock ← product.index "media"
  let images ← (← mediaBlock.index "images").asArr
  let media ← imageUrls images
  let pricing ← product.index "pricing"
  let category ← product.index "vertical"
  let warranty ← product.index "warrantySummary"
  let availBlock ← product.index "availability"
  let avail ← availBlock.index "displayState"
  .ok ⟨pid, title, url, rating, specs, media, pricing, category, warranty, avail, "flipkart"⟩

end FlipkartScraper

/-- Outcome reported by `save_to_db` through its log messages. -/
inductive SaveReport where
  | saved
  | alreadyExists
deriving Repr, DecidableEq

/-- Modelled from the spec: the persistence collaborator (`MysqlConnection`,
whose module is not part of the scraper sources) is "a single table" of
product records; we model its contents as the list of inserted records. -/
structure DB where
  records : List ProductRecord
deriving Repr

/-- Modelled from the spec: `exists(product_id) -> bool` queries the store
for existence of a record with that `product_id`. -/
def DB.existsPid (db : DB) (pid : JVal) : Bool :=
  db.records.any (fun r => JVal.beq r.product_id pid)

/-- Modelled from the spec: `insert(ProductRecord) -> void` adds the record
to the store. -/
def DB.insertRec (db : DB) (r : ProductRecord) : DB :=
  ⟨db.records ++ [r]⟩

/-- Number of stored records whose `product_id` equals `pid`. -/
def DB.countPid (db : DB) (pid : JVal) : Nat :=
  (db.records.filter (fun r => JVal.beq r.product_id pid)).length

namespace FlipkartScraper

/-- `FlipkartScraper.save_to_db`: insert only when no record with the same
`product_id` exists, otherwise skip and report "already exists". -/
def save_to_db (db : DB) (product_details : ProductRecord) : DB × SaveReport :=
  if !(db.existsPid product_details.product_id) then
    (db.insertRec product_details, .saved)
  else
    (db, .alreadyExists)

end FlipkartScraper

/-- The record loop at the end of `start`:
`for product in products: product_details = self.get_product_details(product);
self.save_to_db(product_details)`. A `KeyError` from `get_product_details`
propagates, abandoning the remaining products; the state reached so far is
kept so the effect of the partial run is observable. -/
def processProducts (products : List JVal) (db : DB) : DB × Option PyErr :=
  match products with
  | [] => (db, none)
  | p :: rest =>
    match FlipkartScraper.get_product_details p with
    | .error e => (db, some e)
    | .ok d => processProducts rest (FlipkartScraper.save_to_db db d).1

/-- The per-page processing of `FlipkartScraper.start` after the fetch:
parse the page, extract the products, normalize and persist each. Returns
the error-log messages of `get_json_response`, the resulting store, and the
uncaught Python exception if one escapes. -/
def processPage (parseJson : String → Option JVal) (soup : Soup) (db : DB) :
    List String × DB × Option PyErr :=
  let jr := FlipkartScraper.get_json_response parseJson soup
  match FlipkartScraper.get_products jr.1 with
  | .error e => (jr.2, db, some e)
  | .ok products =>
    let r := processProducts products db
    (jr.2, r.1, r.2)


/-- Observable events of the driver and the retry decorator: one invocation
of the fetch→extract→persist sequence (`self.start(query)`) at a given value
of `PAGE`, and one blocking `time.sleep(secs)`. -/
inductive Ev where
  | page (n : Nat)
  | sleep (secs : Nat)
deriving Repr, DecidableEq

/-- Result of one `run` invocation: the event trace, the final value of the
mutable `PAGE` attribute, and the exception that escaped, if any. -/
structure RunResult (eps : Type) where
  trace : List Ev
  page : Nat
  error : Option eps
deriving Repr

/-- The body of the pagination loop, recursing on the number of remaining
iterations (`fuel = maxPages + 1 - page`, which is zero exactly when the
guard `page ≤ maxPages` fails, and decreases by one as `PAGE` is
incremented). An exception from `start` propagates immediately, before the
sleep and before the increment. -/
def runPagesGo {eps : Type} (start : Nat → Except eps Unit) :
    Nat → Nat → RunResult eps
  | 0, page => ⟨[], page, none⟩
  | fuel + 1, page =>
    match start page with
    | .error e => ⟨[.page page], page, some e⟩
    | .ok _ =>
      let r := runPagesGo start fuel (page + 1)
      ⟨.page page :: .sleep 5 :: r.trace, r.page, r.error⟩

/-- The pagination loop of `FlipkartScraper.run`:
`while self.PAGE <= self.MAX_PAGES: self.start(query); time.sleep(5);
self.PAGE += 1`. The per-page sequence is abstracted as `start`, indexed by
the current `PAGE`. -/
def runPages {eps : Type} (start : Nat → Except eps Unit) (maxPages page : Nat) :
    RunResult eps :=
  runPagesGo start (maxPages + 1 - page) page

namespace FlipkartScraper

/-- `FlipkartScraper.run` (the Driver), parametric in the configuration
(`ENABLE_PAGINATION`, `MAX_PAGES`), the per-page sequence `start`, and the
current value of the mutable `PAGE` attribute. When pagination is disabled
the sequence runs exactly once and `PAGE` is not touched. -/
def run {eps : Type} (enablePagination : Bool) (maxPages : Nat)
    (start : Nat → Except eps Unit) (page : Nat) : RunResult eps :=
  if enablePagination then runPages start maxPages page
  else
    match start page with
    | .error e => ⟨[.page page], page, some e⟩
    | .ok _ => ⟨[.page page], page, none⟩

end FlipkartScraper

/-- The trace produced by a run of consecutive successful pages starting at
`first` and containing `count` pages, each page followed by the fixed
5-second sleep. -/
def pageTrace (first count : Nat) : List Ev :=
  match count with
  | 0 => []
  | c + 1 => .page first :: .sleep 5 :: pageTrace (first + 1) c

/-- The page numbers at which the fetch→extract→persist sequence was
invoked, in order. -/
def pagesOf (trace : List Ev) : List Nat :=
  trace.filterMap (fun e => match e with | .page n => some n | _ => none)

/-- An HTTP response as seen by the scraper: `ok` is `response.ok`
(success status), `reason` the status reason, `text` the body. -/
structure HttpResponse where
  ok : Bool
  reason : String
  text : String
deriving Repr, DecidableEq

/-- Failures of one fetch attempt: a transport-level exception raised by
`requests.get`, or the `Exception('Failed to fetch URL: ...')` the scraper
raises on a non-success status. -/
inductive FetchErr where
  | transport (msg : String)
  | httpStatus (url reason : String)
deriving Repr, DecidableEq

/-- The `@retry(Exception, tries=3, delay=2)` decorator: run the body; on an
exception, if more than one try remains, sleep `delay` seconds and retry
with the next attempt index, otherwise re-raise the last exception. Records
the sleeps in the trace. -/
def retryCall {eps alp : Type} (body : Nat → Except eps alp) (delay : Nat) :
    Nat → Nat → List Ev × Except eps alp
  | 0, attempt =>
    match body attempt with
    | .ok a => ([], .ok a)
    | .error e => ([], .error e)
  | 1, attempt =>
    match body attempt with
    | .ok a => ([], .ok a)
    | .error e => ([], .error e)
  | t + 2, attempt =>
    match body attempt with
    | .ok a => ([], .ok a)
    | .error _ =>
      let r := retryCall body delay (t + 1) (attempt + 1)
      (.sleep delay :: r.1, r.2)

namespace FlipkartScraper

/-- The query parameters built by `get_response`. -/
def searchParams (query : String) (page : Nat) : List (String × String) :=
  [("q", query), ("otracker", "search"), ("otracker1", "search"),
   ("marketplace", "FLIPKART"), ("as-show", "off"), ("as", "off"),
   ("page", toString page)]

/-- One undecorated attempt of `FlipkartScraper.get_response`: perform the
transport call (`requests.get`, abstracted as `transport`, indexed by the
attempt number) and raise when the response has a non-success status. -/
def get_response_once (transport : Nat → Except FetchErr HttpResponse)
    (url : String) (attempt : Nat) : Except FetchErr HttpResponse :=
  match transport attempt with
  | .error e => .error e
  | .ok r => if r.ok then .ok r else .error (.httpStatus url r.reason)

/-- `FlipkartScraper.get_response` with its decorator:
`@retry(Exception, tries=3, delay=2)`, first attempt numbered 1. -/
def get_response (transport : Nat → Except FetchErr HttpResponse)
    (url : String) : List Ev × Except FetchErr HttpResponse :=
  retryCall (get_response_once transport url) 2 3 1

end FlipkartScraper

/-- Whether an `Except` computation succeeded (the Python call returned
without raising). -/
def exceptOk {eps alp : Type} : Except eps alp → Bool
  | .ok _ => true
  | .error _ => false

/-- The qualification condition of the slot loop, as a predicate: the slot's
`slotType` tag equals `'WIDGET'` and its nested widget's `type` tag equals
`'PRODUCT_SUMMARY'` (false as well when those lookups would raise). -/
def slotQualifies (slot : JVal) : Bool :=
  match slot.index "slotType" with
  | .error _ => false
  | .ok st =>
    st.isStrVal "WIDGET" &&
      (match slot.index "widget" with
       | .error _ => false
       | .ok w =>
         match w.index "type" with
         | .error _ => false
         | .ok ty => ty.isStrVal "PRODUCT_SUMMARY")

/-- The payload a qualifying slot contributes:
`slot['widget']['data']['products'][0]['productInfo']['value']`,
when every step succeeds. -/
def slotValue (slot : JVal) : Option JVal :=
  (do
    let w ← slot.index "widget"
    let d ← w.index "data"
    let ps ← d.index "products"
    let p0 ← ps.head0
    let pinfo ← p0.index "productInfo"
    pinfo.index "value" : Except PyErr JVal).toOption

/-- Whether processing one slot raises no exception. -/
def slotTotal (slot : JVal) : Bool :=
  exceptOk (processSlot slot [])

/-- The raw payload of the normalization fixture in the spec (section 8). -/
def samplePayload : JVal :=
  .obj [("id", .str "P1"), ("titles", .obj [("title", .str "Phone X")]),
        ("baseUrl", .str "/p/p1"), ("rating", .obj [("average", .num 4)]),
        ("keySpecs", .arr [.str "4 GB RAM"]),
        ("media", .obj [("images", .arr [.obj [("url", .str "http://img/1.jpg")]])]),
        ("pricing", .obj [("finalPrice", .num 999)]),
        ("vertical", .str "MOBILES"), ("warrantySummary", .str "1 Year"),
        ("availability", .obj [("displayState", .str "IN_STOCK")])]

/-- A second well-formed raw payload, with a different identifier. -/
def samplePayload2 : JVal :=
  .obj [("id", .str "P3"), ("titles", .obj [("title", .str "Phone Y")]),
        ("baseUrl", .str "/p/p3"), ("rating", .obj [("average", .num 5)]),
        ("keySpecs", .arr [.str "8 GB RAM"]),
        ("media", .obj [("images", .arr [.obj [("url", .str "http://img/3.jpg")]])]),
        ("pricing", .obj [("finalPrice", .num 1999)]),
        ("vertical", .str "MOBILES"), ("warrantySummary", .str "2 Years"),
        ("availability", .obj [("displayState", .str "IN_STOCK")])]

/-- A raw payload that lacks the identifier field `id` but carries every
other field of the normalization contract. -/
def badPayload : JVal :=
  .obj [("titles", .obj [("title", .str "Phone Z")]),
        ("baseUrl", .str "/p/p2"), ("rating", .obj [("average", .num 3)]),
        ("keySpecs", .arr [.str "2 GB RAM"]),
        ("media", .obj [("images", .arr [.obj [("url", .str "http://img/2.jpg")]])]),
        ("pricing", .obj [("finalPrice", .num 499)]),
        ("vertical", .str "MOBILES"), ("warrantySummary", .str "6 Months"),
        ("availability", .obj [("displayState", .str "IN_STOCK")])]

/-- A qualifying widget slot carrying the given payload as the nested value
of the first entry of its product list. -/
def qualSlot (v : JVal) : JVal :=
  .obj [("slotType", .str "WIDGET"),
        ("widget", .obj [("type", .str "PRODUCT_SUMMARY"),
                         ("data", .obj [("products",
                            .arr [.obj [("productInfo", .obj [("value", v)])]])])])]

/-- A widget slot that does not qualify: its widget's type tag is not the
product-summary marker. -/
def otherSlot : JVal :=
  .obj [("slotType", .str "WIDGET"),
        ("widget", .obj [("type", .str "AD"), ("data", .obj [])])]

/-- An HTML-strategy fixture document with exactly one qualifying widget
slot (and one non-qualifying slot in another value-list). -/
def htmlFixture : JVal :=
  .obj [("pageDataV4", .obj [("page", .obj [("data", .obj
    [("10", .arr [otherSlot]), ("20", .arr [qualSlot samplePayload])])])])]

/-- An API-strategy fixture document with exactly one qualifying widget slot
(and one non-qualifying slot before it). -/
def apiFixture : JVal :=
  .obj [("RESPONSE", .obj [("slots", .arr [otherSlot, qualSlot samplePayload])])]

/-- A qualifying slot whose widget data lacks the `products` list. -/
def slotNoProducts : JVal :=
  .obj [("slotType", .str "WIDGET"),
        ("widget", .obj [("type", .str "PRODUCT_SUMMARY"), ("data", .obj [])])]

/-- A qualifying slot whose product list is empty. -/
def slotEmptyProducts : JVal :=
  .obj [("slotType", .str "WIDGET"),
        ("widget", .obj [("type", .str "PRODUCT_SUMMARY"),
                         ("data", .obj [("products", .arr [])])])]

/-- A qualifying slot whose first product entry lacks `productInfo`. -/
def slotNoInfo : JVal :=
  .obj [("slotType", .str "WIDGET"),
        ("widget", .obj [("type", .str "PRODUCT_SUMMARY"),
                         ("data", .obj [("products", .arr [.obj []])])])]

/-- An HTML-strategy document whose second value-list holds a good
qualifying slot followed by a qualifying slot lacking `products`. -/
def brokenHtmlFixture : JVal :=
  .obj [("pageDataV4", .obj [("page", .obj [("data", .obj
    [("10", .arr [qualSlot samplePayload, slotNoProducts])])])])]

/-- An API-strategy document whose slot list holds a good qualifying slot
followed by a qualifying slot lacking `products`. -/
def brokenApiFixture : JVal :=
  .obj [("RESPONSE", .obj [("slots", .arr [qualSlot samplePayload, slotNoProducts])])]

/-- The canonical record the Normalizer produces from `samplePayload`. -/
def sampleRecord : ProductRecord :=
  ⟨.str "P1", .str "Phone X", "https://www.flipkart.com/p/p1",
   .obj [("average", .num 4)], .arr [.str "4 GB RAM"],
   [.str "http://img/1.jpg"], .obj [("finalPrice", .num 999)],
   .str "MOBILES", .str "1 Year", .str "IN_STOCK", "flipkart"⟩

/-! Helper lemmas. -/

mutual

theorem JVal.beq_refl : ∀ v : JVal, JVal.beq v v = true
  | .null => rfl
  | .bool b => by simp [JVal.beq]
  | .num n => by simp [JVal.beq]
  | .str s => by simp [JVal.beq]
  | .arr xs => by simp [JVal.beq, JVal.beqArr_refl xs]
  | .obj xs => by simp [JVal.beq, JVal.beqObj_refl xs]

theorem JVal.beqArr_refl : ∀ xs : List JVal, JVal.beqArr xs xs = true
  | [] => rfl
  | x :: xs => by simp [JVal.beqArr, JVal.beq_refl x, JVal.beqArr_refl xs]

theorem JVal.beqObj_refl : ∀ xs : List (String × JVal), JVal.beqObj xs xs = true
  | [] => rfl
  | (k, v) :: xs => by simp [JVal.beqObj, JVal.beq_refl v, JVal.beqObj_refl xs]

end

theorem runPagesGo_ok {eps : Type} (start : Nat → Except eps Unit)
    (h : ∀ q, start q = .ok ()) :
    ∀ fuel page, runPagesGo start fuel page = ⟨pageTrace page fuel, page + fuel, none⟩ := by
  intro fuel
  induction fuel with
  | zero => intro page; simp [runPagesGo, pageTrace]
  | succ f ih =>
    intro page
    simp only [runPagesGo, h page, ih (page + 1), pageTrace]
    have hp : page + 1 + f = page + (f + 1) := by omega
    rw [hp]

theorem runPagesGo_fail {eps : Type} (start : Nat → Except eps Unit) (k : Nat) (e : eps)
    (hk : start k = .error e) (hlt : ∀ q, q < k → start q = .ok ()) :
    ∀ fuel page, page ≤ k → k < page + fuel →
      runPagesGo start fuel page = ⟨pageTrace page (k - page) ++ [.page k], k, some e⟩ := by
  intro fuel
  induction fuel with
  | zero => intro page h1 h2; omega
  | succ f ih =>
    intro page h1 h2
    rcases Nat.eq_or_lt_of_le h1 with heq | hlt2
    · subst heq
      simp [runPagesGo, hk, pageTrace]
    · have hsp : start page = .ok () := hlt page hlt2
      simp only [runPagesGo, hsp, ih (page + 1) (by omega) (by omega)]
      have : k - page = (k - (page + 1)) + 1 := by omega
      simp [this, pageTrace]

theorem pagesOf_pageTrace : ∀ s c, pagesOf (pageTrace s c) = List.range' s c := by
  intro s c
  induction c generalizing s with
  | zero => simp [pageTrace, pagesOf]
  | succ n ih => simp [pageTrace, pagesOf, List.range'_succ] at ih ⊢; exact ih (s + 1)

theorem processSlot_acc (s : JVal) (acc : List JVal) :
    processSlot s acc = Except.map (fun l => acc ++ l) (processSlot s []) := by
  unfold processSlot
  repeat' split
  all_goals simp_all [Except.map]

theorem processSlot_ok_char (slot : JVal) (acc out : List JVal)
    (h : processSlot slot acc = .ok out) :
    out = acc ++ (if slotQualifies slot then (slotValue slot).toList else []) := by
  unfold processSlot at h
  repeat' split at h
  all_goals simp_all [slotQualifies, slotValue, Except.toOption, Bind.bind, Except.bind]

theorem processSlots_total (slots : List JVal)
    (h : ∀ s ∈ slots, slotTotal s = true) :
    ∀ acc, exceptOk (processSlots slots acc) = true := by
  induction slots with
  | nil => intro acc; rfl
  | cons s rest ih =>
    intro acc
    have hs := h s (by simp)
    unfold slotTotal at hs
    cases hps : processSlot s [] with
    | error e => rw [hps] at hs; simp [exceptOk] at hs
    | ok l =>
      have hacc : processSlot s acc = .ok (acc ++ l) := by
        rw [processSlot_acc, hps]; rfl
      simp only [processSlots, hacc]
      exact ih (fun t ht => h t (by simp [ht])) (acc ++ l)

theorem processProducts_stops_at_bad (pre : List JVal) (bad : JVal) (post : List JVal)
    (hbad : FlipkartScraper.get_product_details bad = .error (.keyError "id"))
    (hpre : ∀ p ∈ pre, exceptOk (FlipkartScraper.get_product_details p) = true) :
    ∀ db, processProducts (pre ++ bad :: post) db =
      ((processProducts pre db).1, some (PyErr.keyError "id")) := by
  induction pre with
  | nil => intro db; simp [processProducts, hbad]
  | cons p rest ih =>
    intro db
    have hp := hpre p (by simp)
    cases hd : FlipkartScraper.get_product_details p with
    | error e => rw [hd] at hp; simp [exceptOk] at hp
    | ok d =>
      simp only [List.cons_append, processProducts, hd]
      exact ih (fun q hq => hpre q (by simp [hq])) _

/-! The claims. -/

/-- Claim C1: the spec says that when the embedded `is_script` element is
absent, or when its body fails to parse as JSON after stripping the
assignment prefix and the trailing terminator, the page yields an empty
product set, the error is logged, and no exception escapes the per-page
processing. The code contradicts the last part: `get_json_response` does
log the error and return the empty dict, but `start` then passes that
empty dict straight to `get_products`, whose first subscript raises
`KeyError('pageDataV4')`, which escapes the per-page processing. This
theorem evaluates the per-page processing at both failing inputs: in both
cases the error is logged, the store is untouched, and the `KeyError`
escapes instead of the page being treated as zero results. -/
theorem C1_extraction_error_escapes :
    processPage (fun _ => none) ⟨none⟩ ⟨[]⟩ =
      (["No script found with id: is_script"], ⟨[]⟩, some (.keyError "pageDataV4")) ∧
    processPage (fun _ => none) ⟨some "window.__INITIAL_STATE__ = not json;"⟩ ⟨[]⟩ =
      (["Failed to parse JSON data"], ⟨[]⟩, some (.keyError "pageDataV4")) :=
  ⟨rfl, rfl⟩

/-- Claim C2, counterexample: a page whose extraction yields 3 raw payloads
of which exactly the second lacks the identifier field persists exactly 1
record, not 2, and the processing aborts with `KeyError('id')` — refuting
"persists exactly 2 records ... and the run does not abort". -/
theorem C2_counterexample :
    (processProducts [samplePayload, badPayload, samplePayload2] (DB.mk [])).2 =
      some (.keyError "id") ∧
    (processProducts [samplePayload, badPayload, samplePayload2] (DB.mk [])).1.records.length
      = 1 :=
  ⟨rfl, rfl⟩

/-- Claim C2 as amended: for a page whose payload list is any run of
well-formed payloads followed by one payload lacking the identifier field
(and then anything), processing persists exactly the records preceding the
malformed payload, then the `KeyError('id')` raised while normalizing the
malformed payload propagates and aborts the run, so the remaining payloads
are not processed. -/
theorem C2_malformed_payload_aborts (pre post : List JVal) (bad : JVal) (db : DB)
    (hbad : FlipkartScraper.get_product_details bad = .error (.keyError "id"))
    (hpre : ∀ p ∈ pre, exceptOk (FlipkartScraper.get_product_details p) = true) :
    processProducts (pre ++ bad :: post) db =
      ((processProducts pre db).1, some (PyErr.keyError "id")) :=
  processProducts_stops_at_bad pre bad post hbad hpre db

/-- Claim C2 witness: the amended claim at a concrete 3-payload page whose
second payload lacks the identifier field. -/
theorem C2_malformed_payload_aborts_witness :
    processProducts ([samplePayload] ++ badPayload :: [samplePayload2]) (DB.mk []) =
      ((processProducts [samplePayload] (DB.mk [])).1, some (PyErr.keyError "id")) :=
  C2_malformed_payload_aborts [samplePayload] [samplePayload2] badPayload (DB.mk [])
    rfl (by decide)

/-- Claim C3: with pagination enabled and a maximum page bound of 3, one run
of the Driver invokes the fetch→extract→persist sequence exactly 3 times,
at pages 1, 2, 3 in that order, with the fixed 5-second sleep at each page
boundary (the trace equation exhibits the full event sequence); with
pagination disabled, the sequence is invoked exactly once, at the current
page. -/
theorem C3_pagination_bound {eps : Type} :
    (∀ start : Nat → Except eps Unit, (∀ q, start q = .ok ()) →
      FlipkartScraper.run true 3 start 1 =
        ⟨[.page 1, .sleep 5, .page 2, .sleep 5, .page 3, .sleep 5], 4, none⟩) ∧
    (∀ (start : Nat → Except eps Unit) (maxPages page : Nat),
      pagesOf (FlipkartScraper.run false maxPages start page).trace = [page]) := by
  constructor
  · intro start h
    show runPages start 3 1 = _
    unfold runPages
    rw [runPagesGo_ok start h]
    rfl
  · intro start m p
    unfold FlipkartScraper.run
    cases hs : start p <;> simp [hs, pagesOf]

/-- Claim C3 witness: the pagination bound at a concrete always-succeeding
per-page sequence. -/
theorem C3_pagination_bound_witness :
    FlipkartScraper.run true 3 (fun _ => (.ok () : Except Unit Unit)) 1 =
      ⟨[.page 1, .sleep 5, .page 2, .sleep 5, .page 3, .sleep 5], 4, none⟩ ∧
    pagesOf (FlipkartScraper.run false 10 (fun _ => (.ok () : Except Unit Unit)) 1).trace
      = [1] :=
  ⟨C3_pagination_bound.1 (fun _ => .ok ()) (fun _ => rfl),
   C3_pagination_bound.2 (fun _ => .ok ()) 10 1⟩

/-- Claim C4: `get_response` makes up to 3 total attempts with a fixed
2-second wait between attempts; a non-success HTTP status is raised as an
exception exactly like a transport failure, so both are retried identically.
If the first two attempts fail and the third transport call returns a
success-status response, that response is returned; if all 3 attempts fail,
the last failure is raised to the caller. -/
theorem C4_retry_bound :
    (∀ (transport : Nat → Except FetchErr HttpResponse) (url : String)
       (e1 e2 : FetchErr) (r : HttpResponse),
       FlipkartScraper.get_response_once transport url 1 = .error e1 →
       FlipkartScraper.get_response_once transport url 2 = .error e2 →
       transport 3 = .ok r → r.ok = true →
       FlipkartScraper.get_response transport url = ([.sleep 2, .sleep 2], .ok r)) ∧
    (∀ (transport : Nat → Except FetchErr HttpResponse) (url : String)
       (e1 e2 e3 : FetchErr),
       FlipkartScraper.get_response_once transport url 1 = .error e1 →
       FlipkartScraper.get_response_once transport url 2 = .error e2 →
       FlipkartScraper.get_response_once transport url 3 = .error e3 →
       FlipkartScraper.get_response transport url = ([.sleep 2, .sleep 2], .error e3)) ∧
    (∀ (transport : Nat → Except FetchErr HttpResponse) (url : String)
       (i : Nat) (r : HttpResponse),
       transport i = .ok r → r.ok = false →
       FlipkartScraper.get_response_once transport url i =
         .error (.httpStatus url r.reason)) := by
  refine ⟨?_, ?_, ?_⟩
  · intro transport url e1 e2 r h1 h2 h3 hr
    have ha3 : FlipkartScraper.get_response_once transport url 3 = .ok r := by
      simp [FlipkartScraper.get_response_once, h3, hr]
    show retryCall (FlipkartScraper.get_response_once transport url) 2 (1 + 2) 1 = _
    rw [retryCall, h1]
    show (Ev.sleep 2 ::
      (retryCall (FlipkartScraper.get_response_once transport url) 2 (0 + 2) 2).1, _) = _
    rw [retryCall, h2]
    simp only []
    rw [retryCall, ha3]
  · intro transport url e1 e2 e3 h1 h2 h3
    show retryCall (FlipkartScraper.get_response_once transport url) 2 (1 + 2) 1 = _
    rw [retryCall, h1]
    show (Ev.sleep 2 ::
      (retryCall (FlipkartScraper.get_response_once transport url) 2 (0 + 2) 2).1, _) = _
    rw [retryCall, h2]
    simp only []
    rw [retryCall, h3]
  · intro transport url i r ht hr
    simp [FlipkartScraper.get_response_once, ht, hr]

/-- Claim C4 witness: a transport that fails on the first two attempts and
succeeds on the third returns the success with two 2-second waits; a
transport failing on every attempt raises the last failure; a success-status
check turns a non-2xx response into a raised exception. -/
theorem C4_retry_bound_witness :
    FlipkartScraper.get_response
        (fun i => if i ≤ 2 then .error (.transport "connection reset")
                  else .ok ⟨true, "OK", "page body"⟩)
        "https://www.flipkart.com/search" =
      ([.sleep 2, .sleep 2], .ok ⟨true, "OK", "page body"⟩) ∧
    FlipkartScraper.get_response (fun _ => .error (.transport "connection reset"))
        "https://www.flipkart.com/search" =
      ([.sleep 2, .sleep 2], .error (.transport "connection reset")) ∧
    FlipkartScraper.get_response_once
        (fun _ => .ok ⟨false, "Internal Server Error", ""⟩)
        "https://www.flipkart.com/search" 1 =
      .error (.httpStatus "https://www.flipkart.com/search" "Internal Server Error") :=
  ⟨C4_retry_bound.1 _ _ (.transport "connection reset") (.transport "connection reset")
      ⟨true, "OK", "page body"⟩ rfl rfl rfl rfl,
   C4_retry_bound.2.1 _ _ (.transport "connection reset") (.transport "connection reset")
      (.transport "connection reset") rfl rfl rfl,
   C4_retry_bound.2.2 _ _ 1 ⟨false, "Internal Server Error", ""⟩ rfl rfl⟩

/-- Claim C5: persisting the same `ProductRecord` twice is idempotent: when
no record with its `product_id` is stored yet, the first call inserts the
record and reports `saved`; the second call performs no write (the store is
returned unchanged, no field refreshed) and reports `alreadyExists`; after
both calls the store holds exactly one record with that `product_id`. -/
theorem C5_idempotent_persist (db : DB) (d : ProductRecord)
    (h : db.existsPid d.product_id = false) :
    FlipkartScraper.save_to_db db d = (db.insertRec d, .saved) ∧
    FlipkartScraper.save_to_db (db.insertRec d) d = (db.insertRec d, .alreadyExists) ∧
    DB.countPid (db.insertRec d) d.product_id = 1 := by
  have hex : (db.insertRec d).existsPid d.product_id = true := by
    simp [DB.existsPid, DB.insertRec, JVal.beq_refl]
  refine ⟨?_, ?_, ?_⟩
  · simp [FlipkartScraper.save_to_db, h]
  · simp [FlipkartScraper.save_to_db, hex]
  · have hnil : db.records.filter (fun r => JVal.beq r.product_id d.product_id) = [] := by
      rw [List.filter_eq_nil_iff]
      intro a ha
      have := List.any_eq_false.mp h a ha
      simp_all
    simp [DB.countPid, DB.insertRec, List.filter_append, hnil, JVal.beq_refl]

/-- Claim C5 witness: persisting the sample record twice into the empty
store. -/
theorem C5_idempotent_persist_witness :
    FlipkartScraper.save_to_db (DB.mk []) sampleRecord =
      ((DB.mk []).insertRec sampleRecord, .saved) ∧
    FlipkartScraper.save_to_db ((DB.mk []).insertRec sampleRecord) sampleRecord =
      ((DB.mk []).insertRec sampleRecord, .alreadyExists) ∧
    DB.countPid ((DB.mk []).insertRec sampleRecord) sampleRecord.product_id = 1 :=
  ⟨(C5_idempotent_persist (DB.mk []) sampleRecord rfl).1,
   (C5_idempotent_persist (DB.mk []) sampleRecord rfl).2.1,
   (C5_idempotent_persist (DB.mk []) sampleRecord rfl).2.2⟩

/-- Claim C6: on the spec's fixture payload, the Normalizer produces a
record with `product_id="P1"`, `title="Phone X"`, `url` equal to the base
path resolved against the site root (an absolute URL), `media` holding the
single image URL, `category="MOBILES"`, `availability="IN_STOCK"` and the
fixed source tag `"flipkart"`. -/
theorem C6_normalization_mapping :
    FlipkartScraper.get_product_details samplePayload = .ok sampleRecord ∧
    sampleRecord.url = urljoin FlipkartScraper.BASE_URL "/p/p1" ∧
    sampleRecord.url = "https://www.flipkart.com/p/p1" ∧
    sampleRecord.media = [.str "http://img/1.jpg"] ∧
    sampleRecord.source = "flipkart" :=
  ⟨rfl, rfl, rfl, rfl, rfl⟩

/-- Claim C7: whenever processing a slot succeeds, the slot contributes a
payload if and only if its `slotType` tag equals `'WIDGET'` and its nested
widget's `type` tag equals `'PRODUCT_SUMMARY'`, and the contribution is the
nested value of the first entry of its product list (`slotValue`); and a
fixture document with exactly one qualifying widget slot yields exactly one
raw payload in both extraction strategies. -/
theorem C7_slot_qualification :
    (∀ (slot : JVal) (acc out : List JVal), processSlot slot acc = .ok out →
      out = acc ++ (if slotQualifies slot then (slotValue slot).toList else [])) ∧
    FlipkartScraper.get_products htmlFixture = .ok [samplePayload] ∧
    FlipkartApiScraper.get_products apiFixture = .ok [samplePayload] :=
  ⟨fun slot acc out h => processSlot_ok_char slot acc out h, rfl, rfl⟩

/-- Claim C7 witness: the qualifying fixture slot contributes exactly its
nested payload. -/
theorem C7_slot_qualification_witness :
    [samplePayload] = [] ++
      (if slotQualifies (qualSlot samplePayload)
       then (slotValue (qualSlot samplePayload)).toList else []) ∧
    FlipkartScraper.get_products htmlFixture = .ok [samplePayload] ∧
    FlipkartApiScraper.get_products apiFixture = .ok [samplePayload] :=
  ⟨C7_slot_qualification.1 (qualSlot samplePayload) [] [samplePayload] rfl,
   C7_slot_qualification.2.1, C7_slot_qualification.2.2⟩

/-- Claim C8: if on some page `k` of a multi-page run (pagination enabled,
`1 ≤ k ≤ maxPages`) the per-page sequence fails — as it does when
`get_response` exhausts its retries — the failure propagates out of the
Driver and ends the whole run: the pages invoked are exactly 1..k, and no
page after `k` is fetched. -/
theorem C8_fetch_failure_fatal {eps : Type} (start : Nat → Except eps Unit)
    (m k : Nat) (e : eps) (h1 : 1 ≤ k) (h2 : k ≤ m)
    (hk : start k = .error e) (hlt : ∀ q, q < k → start q = .ok ()) :
    (FlipkartScraper.run true m start 1).error = some e ∧
    pagesOf (FlipkartScraper.run true m start 1).trace = List.range' 1 k ∧
    ∀ p, k < p → Ev.page p ∉ (FlipkartScraper.run true m start 1).trace := by
  obtain ⟨j, rfl⟩ : ∃ j, k = j + 1 := ⟨k - 1, by omega⟩
  have hr : FlipkartScraper.run true m start 1 =
      ⟨pageTrace 1 j ++ [.page (j + 1)], j + 1, some e⟩ := by
    show runPages start m 1 = _
    unfold runPages
    have := runPagesGo_fail start (j + 1) e hk hlt (m + 1 - 1) 1 (by omega) (by omega)
    simpa using this
  have hpages : pagesOf (FlipkartScraper.run true m start 1).trace =
      List.range' 1 (j + 1) := by
    rw [hr]
    show pagesOf (pageTrace 1 j ++ [Ev.page (j + 1)]) = List.range' 1 (j + 1)
    unfold pagesOf
    rw [List.filterMap_append]
    have hpt := pagesOf_pageTrace 1 j
    unfold pagesOf at hpt
    rw [hpt, List.range'_concat]
    simp [Nat.add_comm]
  refine ⟨by rw [hr], hpages, ?_⟩
  intro p hp hmem
  have hmem2 : p ∈ pagesOf (FlipkartScraper.run true m start 1).trace := by
    unfold pagesOf
    exact List.mem_filterMap.mpr ⟨_, hmem, rfl⟩
  rw [hpages] at hmem2
  have := List.mem_range'_1.mp hmem2
  omega

/-- Claim C8 witness: a 3-page run whose second page fails ends with the
failure, invoked exactly pages 1 and 2, and never fetched page 3. -/
theorem C8_fetch_failure_fatal_witness :
    (FlipkartScraper.run true 3
      (fun p => if p = 2 then .error "retries exhausted" else (.ok () : Except String Unit))
      1).error = some "retries exhausted" ∧
    pagesOf (FlipkartScraper.run true 3
      (fun p => if p = 2 then .error "retries exhausted" else (.ok () : Except String Unit))
      1).trace = List.range' 1 2 ∧
    Ev.page 3 ∉ (FlipkartScraper.run true 3
      (fun p => if p = 2 then .error "retries exhausted" else (.ok () : Except String Unit))
      1).trace := by
  have hc := C8_fetch_failure_fatal
    (fun p => if p = 2 then .error "retries exhausted" else (.ok () : Except String Unit))
    3 2 "retries exhausted" (by omega) (by omega) rfl
    (by intro q hq; interval_cases q <;> rfl)
  exact ⟨hc.1, hc.2.1, hc.2.2 3 (by omega)⟩

/-- Claim C9: the pagination counter is instance state that is incremented
past the bound and never reset: a completed run with pagination enabled
starting at page 1 leaves the counter at `maxPages + 1`, and a second run
starting from that counter value performs zero page iterations. -/
theorem C9_page_counter_persists {eps : Type} (start : Nat → Except eps Unit)
    (m : Nat) (h : ∀ q, start q = .ok ()) :
    (FlipkartScraper.run true m start 1).page = m + 1 ∧
    pagesOf (FlipkartScraper.run true m start
      ((FlipkartScraper.run true m start 1).page)).trace = [] := by
  have hpage : (FlipkartScraper.run true m start 1).page = m + 1 := by
    show (runPages start m 1).page = m + 1
    unfold runPages
    rw [runPagesGo_ok start h]
    simp
    omega
  refine ⟨hpage, ?_⟩
  rw [hpage]
  show pagesOf (runPagesGo start (m + 1 - (m + 1)) (m + 1)).trace = []
  rw [Nat.sub_self]
  rfl

/-- Claim C9 witness: with bound 3, a completed run leaves the counter at 4
and a rerun from there iterates no page. -/
theorem C9_page_counter_persists_witness :
    (FlipkartScraper.run true 3 (fun _ => (.ok () : Except Unit Unit)) 1).page = 4 ∧
    pagesOf (FlipkartScraper.run true 3 (fun _ => (.ok () : Except Unit Unit))
      ((FlipkartScraper.run true 3 (fun _ => (.ok () : Except Unit Unit)) 1).page)).trace
      = [] :=
  ⟨(C9_page_counter_persists (fun _ => .ok ()) 3 (fun _ => rfl)).1,
   (C9_page_counter_persists (fun _ => .ok ()) 3 (fun _ => rfl)).2⟩

/-- Claim C10: a qualifying slot whose widget data lacks a product list
raises `KeyError('products')`, one with an empty product list raises
`IndexError`, and one whose first product entry lacks `productInfo` raises
`KeyError('productInfo')`; in both strategies the exception aborts the whole
page's extraction (even with a good qualifying slot before the broken one)
rather than skipping the slot; and extraction is total when every slot of
the page processes without raising. -/
theorem C10_partial_slot_raises :
    processSlot slotNoProducts [] = .error (.keyError "products") ∧
    processSlot slotEmptyProducts [] = .error .indexError ∧
    processSlot slotNoInfo [] = .error (.keyError "productInfo") ∧
    FlipkartScraper.get_products brokenHtmlFixture = .error (.keyError "products") ∧
    FlipkartApiScraper.get_products brokenApiFixture = .error (.keyError "products") ∧
    (∀ slots : List JVal, (∀ s ∈ slots, slotTotal s = true) →
      ∀ acc, exceptOk (processSlots slots acc) = true) :=
  ⟨rfl, rfl, rfl, rfl, rfl, fun slots h acc => processSlots_total slots h acc⟩

/-- Claim C10 witness: the totality clause at a concrete page whose slots
all process without raising, and the first failure mode at its concrete
slot. -/
theorem C10_partial_slot_raises_witness :
    exceptOk (processSlots [qualSlot samplePayload, otherSlot] []) = true ∧
    processSlot slotNoProducts [] = .error (.keyError "products") :=
  ⟨C10_partial_slot_raises.2.2.2.2.2 [qualSlot samplePayload, otherSlot] (by decide) [],
   C10_partial_slot_raises.1⟩
